import Mathlib

/-!
Shallow embedding of `src/api/line-webhook.js` (salon-inventory-webhook).

Strings are modelled as Lean `String` (a list of unicode characters);
JavaScript regular-expression matching is embedded as explicit
backtracking matchers specialised to the concrete regexes of the source,
following JS leftmost-match, greedy-with-backtracking semantics.
`parseInt` on a `\d+` capture is embedded as decimal digit-list
evaluation into `Nat` (the capture is always a nonempty ASCII digit run,
so the value is a nonnegative integer).
-/

namespace SalonWebhook

/-- JS `\s` character class (also the character set removed by
`String.prototype.trim`): WhiteSpace plus LineTerminator. -/
def isSpaceJS (c : Char) : Bool :=
  c.toNat = 0x9 || c.toNat = 0xA || c.toNat = 0xB || c.toNat = 0xC ||
  c.toNat = 0xD || c.toNat = 0x20 || c.toNat = 0xA0 || c.toNat = 0x1680 ||
  (0x2000 ≤ c.toNat && c.toNat ≤ 0x200A) || c.toNat = 0x2028 ||
  c.toNat = 0x2029 || c.toNat = 0x202F || c.toNat = 0x205F ||
  c.toNat = 0x3000 || c.toNat = 0xFEFF

/-- JS `\d`: ASCII decimal digit. -/
def isDigitA (c : Char) : Bool :=
  '0' ≤ c && c ≤ '9'

/-- ASCII lowercase letter (`[a-z]`). -/
def isLowerA (c : Char) : Bool :=
  'a' ≤ c && c ≤ 'z'

/-- ASCII letter (`[A-Z]` under the `/i` flag). -/
def isLetterA (c : Char) : Bool :=
  ('A' ≤ c && c ≤ 'Z') || isLowerA c

/-- `[A-Z0-9]` under the `/i` flag: ASCII letter or digit. -/
def isAlnumA (c : Char) : Bool :=
  isLetterA c || isDigitA c

/-- ASCII lowering of one character (JS `toLowerCase` restricted to the
ASCII range, which is all the relevant regexes distinguish). -/
def toLowerC (c : Char) : Char :=
  if 'A' ≤ c ∧ c ≤ 'Z' then Char.ofNat (c.toNat + 32) else c

/-- ASCII raising of one character (JS `toUpperCase` on ASCII). -/
def toUpperC (c : Char) : Char :=
  if 'a' ≤ c ∧ c ≤ 'z' then Char.ofNat (c.toNat - 32) else c

/-- Lowercase a whole string. -/
def toLowerStr (s : String) : String :=
  String.mk (s.data.map toLowerC)

/-- `needle` is a prefix of `hay` (character lists). -/
def listPfx : List Char → List Char → Bool
  | [], _ => true
  | _ :: _, [] => false
  | a :: xs, b :: ys => a = b && listPfx xs ys

/-- `hay` contains `needle` as a contiguous substring
(JS `String.prototype.includes` / an unanchored literal regex test). -/
def containsSub (needle : List Char) : List Char → Bool
  | [] => needle.isEmpty
  | c :: cs => listPfx needle (c :: cs) || containsSub needle cs

/-- Case-insensitive prefix stripping of an ASCII literal: returns the
rest of the input when `lit` is a (case-insensitive) prefix of it. -/
def ciDropLit : List Char → List Char → Option (List Char)
  | [], s => some s
  | _ :: _, [] => none
  | a :: xs, b :: ys => if toLowerC a = toLowerC b then ciDropLit xs ys else none

/-- Greedy span: longest prefix satisfying `p`, plus the rest. -/
def spanP (p : Char → Bool) : List Char → List Char × List Char
  | [] => ([], [])
  | c :: cs =>
    if p c then
      ((spanP p cs).1.cons c, (spanP p cs).2)
    else ([], c :: cs)

/-- JS `trim`: drop `isSpaceJS` characters from both ends. -/
def trimJS (s : List Char) : List Char :=
  ((s.dropWhile isSpaceJS).reverse.dropWhile isSpaceJS).reverse

/-- `replace(/[！-～]/g, ch => fromCharCode(code - 0xFEE0))`: shift
full-width ASCII forms U+FF01..U+FF5E down to half-width. -/
def toHalfWidth (c : Char) : Char :=
  if 0xFF01 ≤ c.toNat ∧ c.toNat ≤ 0xFF5E then Char.ofNat (c.toNat - 0xFEE0) else c

/-- `replace(/　/g, ' ')`: full-width space to ASCII space. -/
def zenSpace (c : Char) : Char :=
  if c.toNat = 0x3000 then ' ' else c

/-- `normalizeText` from the source: falsy input gives `''`; otherwise
full-width to half-width, full-width space to space, then trim. -/
def normalizeText (input : String) : String :=
  if input = "" then ""
  else String.mk (trimJS ((input.data.map toHalfWidth).map zenSpace))

/-- `TRIGGER_WORDS` from the source. -/
def TRIGGER_WORDS : List String :=
  ["欲しい", "ほしい", "発注", "注文", "お願い", "必要", "下さい", "ください", "至急", "緊急"]

/-- `hasTrigger`: the text contains some trigger word. -/
def hasTrigger (text : String) : Bool :=
  TRIGGER_WORDS.any (fun w => containsSub w.data text.data)

/-- Anchored test `^\d{1,2}[A-Z]{1,3}` under `/i` (greedy with
backtracking: one or two leading digits followed by a letter). -/
def dlTest : List Char → Bool
  | c0 :: c1 :: rest =>
    isDigitA c0 &&
      (isLetterA c1 ||
        (isDigitA c1 && (match rest with | c2 :: _ => isLetterA c2 | [] => false)))
  | _ => false

/-- Anchored case-insensitive test: literal `lit` followed by `\d+`. -/
def litDigits (lit : String) (code : List Char) : Bool :=
  match ciDropLit lit.data code with
  | some (c :: _) => isDigitA c
  | _ => false

/-- The `colorLike` test of `getProductUnit`:
`/^(\d{1,2}[A-Z]{1,3}|GR\d+|SB\d+|BE\d+|MT\d+|ASH\d+)/i`. -/
def colorLikeTest (code : List Char) : Bool :=
  dlTest code || litDigits "gr" code || litDigits "sb" code ||
  litDigits "be" code || litDigits "mt" code || litDigits "ash" code

/-- `getProductUnit` from the source: uppercase the code, test the
color-like pattern, return `'本'` on both branches. -/
def getProductUnit (productCode : String) : String :=
  if colorLikeTest (productCode.data.map toUpperC) then "本" else "本"

/-- `CategoryResult` record shape. -/
structure CategoryResult where
  category : String
  type : String
deriving DecidableEq, Repr

/-- Anchored test `^\d{1,2}[a-z]{1,3}` (no flag; the code operand is
already lowercased by the caller). -/
def testCatColorCode : List Char → Bool
  | c0 :: c1 :: rest =>
    isDigitA c0 &&
      (isLowerA c1 ||
        (isDigitA c1 && (match rest with | c2 :: _ => isLowerA c2 | [] => false)))
  | _ => false

/-- `detectCategory` from the source: lowercase text and code, then
first-match-wins dispatch into color / straightening / treatment /
other. -/
def detectCategory (productCode : String) (text : String) : CategoryResult :=
  if testCatColorCode (toLowerStr productCode).data ||
     containsSub "gr".data (toLowerStr productCode).data ||
     containsSub "sb".data (toLowerStr productCode).data ||
     containsSub "be".data (toLowerStr productCode).data ||
     containsSub "mt".data (toLowerStr productCode).data ||
     containsSub "ash".data (toLowerStr productCode).data then
    ⟨"color", "color"⟩
  else if containsSub "クオライン".data (toLowerStr text).data ||
          containsSub "quoline".data (toLowerStr text).data ||
          containsSub "縮毛".data (toLowerStr text).data ||
          containsSub "ストレート".data (toLowerStr text).data then
    ⟨"straightening", "chemical"⟩
  else if containsSub "トリートメント".data (toLowerStr text).data ||
          containsSub "treatment".data (toLowerStr text).data ||
          containsSub "リペア".data (toLowerStr text).data ||
          containsSub "repair".data (toLowerStr text).data then
    ⟨"treatment", "treatment"⟩
  else ⟨"other", "other"⟩

/-- Decimal value of a digit run (`parseInt` on a `\d+` capture). -/
def parseDigits (ds : List Char) : Nat :=
  ds.foldl (fun acc c => 10 * acc + (c.toNat - 48)) 0

/-- The optional unit token `(本|個|g|グラム)?` of the first regex,
alternatives tried in order, `g` case-insensitive; returns the matched
text when one alternative matches at the head of the input. -/
def unitTok1 : List Char → Option (List Char)
  | [] => none
  | c :: cs =>
    if c = '本' then some [c]
    else if c = '個' then some [c]
    else if c = 'g' ∨ c = 'G' then some [c]
    else if listPfx "グラム".data (c :: cs) then some "グラム".data
    else none

/-- Tail of the first regex after the code group:
`\s*(\d+)\s*(本|個|g|グラム)?` — greedy spaces, a nonempty digit run,
greedy spaces, optional unit.  Returns the quantity capture and the unit
capture. -/
def try1 (rest : List Char) : Option (List Char × Option (List Char)) :=
  match spanP isDigitA (spanP isSpaceJS rest).2 with
  | ([], _) => none
  | (d :: ds, r2) => some (d :: ds, unitTok1 (spanP isSpaceJS r2).2)

/-- Backtracking over the greedy code group `([A-Z0-9]{2,})`: the group
is shrunk one character at a time from the right (the JS engine's
backtracking order), never below two characters; the first argument is
the current group candidate reversed. -/
def shrink1 : List Char → List Char → Option (List Char × List Char × Option (List Char))
  | [], _ => none
  | [_], _ => none
  | c :: c' :: tl, rest =>
    match try1 rest with
    | some (d, u) => some ((c :: c' :: tl).reverse, d, u)
    | none => shrink1 (c' :: tl) (c :: rest)

/-- One match attempt of regex 1 at the head of the input: take the
maximal alphanumeric run as the greedy code group, then backtrack. -/
def attempt1 (s : List Char) : Option (List Char × List Char × Option (List Char)) :=
  shrink1 (spanP isAlnumA s).1.reverse (spanP isAlnumA s).2

/-- Leftmost-match search for
`/([A-Z0-9]{2,})\s*(\d+)\s*(本|個|g|グラム)?/i`: try each start
position left to right.  Returns (code, quantity digits, unit). -/
def search1 : List Char → Option (List Char × List Char × Option (List Char))
  | [] => none
  | c :: cs =>
    match attempt1 (c :: cs) with
    | some r => some r
    | none => search1 cs

/-- The name alternation `(クオライン|QuoLine|quoline)` under `/i`,
alternatives in order; returns the matched text (original case) and the
rest.  `QuoLine` under `/i` already covers `quoline`. -/
def nameTok2 (s : List Char) : Option (List Char × List Char) :=
  if listPfx "クオライン".data s then some ("クオライン".data, s.drop 5)
  else
    match ciDropLit "quoline".data s with
    | some rest => some (s.take 7, rest)
    | none => none

/-- Tail of the second regex after the first digit group:
`\s*(\d+)` — greedy spaces then a nonempty digit run (the quantity
capture; the trailing `\s*(本|個)?` always succeeds and its capture is
unused by the source). -/
def try2 (rest : List Char) : Option (List Char) :=
  match spanP isDigitA (spanP isSpaceJS rest).2 with
  | ([], _) => none
  | (d :: ds, _) => some (d :: ds)

/-- Backtracking over the greedy first digit group `(\d+)` of regex 2,
shrunk from the right, never below one digit; first argument is the
current candidate reversed. -/
def shrink2 : List Char → List Char → Option (List Char × List Char)
  | [], _ => none
  | c :: tl, rest =>
    match try2 rest with
    | some d3 => some ((c :: tl).reverse, d3)
    | none => shrink2 tl (c :: rest)

/-- One match attempt of regex 2 at the head of the input. -/
def attempt2 (s : List Char) : Option (List Char × List Char × List Char) :=
  match nameTok2 s with
  | none => none
  | some (name, r0) =>
    match shrink2 (spanP isDigitA (spanP isSpaceJS r0).2).1.reverse
        (spanP isDigitA (spanP isSpaceJS r0).2).2 with
    | some (g2, g3) => some (name, g2, g3)
    | none => none

/-- Leftmost-match search for
`/(クオライン|QuoLine|quoline)\s*(\d+)\s*(\d+)\s*(本|個)?/i`.
Returns (matched name, first digit group, second digit group). -/
def search2 : List Char → Option (List Char × List Char × List Char)
  | [] => none
  | c :: cs =>
    match attempt2 (c :: cs) with
    | some r => some r
    | none => search2 cs

/-- `InventoryRequest` record shape; `quantity` is a `Nat` because the
source's `parseInt` is applied to a nonempty `\d+` capture. -/
structure InventoryRequest where
  productCode : String
  quantity : Nat
  unit : String
  originalText : String
  priority : String
deriving DecidableEq, Repr

/-- `/至急|緊急/.test(text)` deciding priority. -/
def priorityOf (text : String) : String :=
  if containsSub "至急".data text.data || containsSub "緊急".data text.data
  then "urgent" else "normal"

/-- The record built by the first branch of `parseInventoryRequest`:
uppercased code, parsed quantity, unit from the capture (`g|グラム`
case-insensitive test) or else `getProductUnit`, and priority from the
normalized text. -/
def mkReq1 (raw text : String) (g1 d : List Char) (u : Option (List Char)) : InventoryRequest :=
  { productCode := String.mk (g1.map toUpperC)
    quantity := parseDigits d
    unit :=
      match u with
      | some sp =>
        if containsSub "g".data (sp.map toLowerC) || containsSub "グラム".data sp
        then "g" else "本"
      | none => getProductUnit (String.mk (g1.map toUpperC))
    originalText := raw
    priority := priorityOf text }

/-- The record built by the second branch of `parseInventoryRequest`:
composite code `` `${m[1]}_${m[2]}` `` (matched name, underscore, first
digit group), quantity from the second digit group, unit `'本'`. -/
def mkReq2 (raw text : String) (name g2 g3 : List Char) : InventoryRequest :=
  { productCode := String.mk name ++ "_" ++ String.mk g2
    quantity := parseDigits g3
    unit := "本"
    originalText := raw
    priority := priorityOf text }

/-- `parseInventoryRequest` from the source: normalize, require a
trigger word, then the two ordered regex attempts, first match wins,
`null` (`none`) when neither matches. -/
def parseInventoryRequest (input : String) : Option InventoryRequest :=
  if hasTrigger (normalizeText input) then
    match search1 (normalizeText input).data with
    | some (g1, d, u) => some (mkReq1 input (normalizeText input) g1 d u)
    | none =>
      match search2 (normalizeText input).data with
      | some (name, g2, g3) => some (mkReq2 input (normalizeText input) name g2 g3)
      | none => none
  else none

/-- Environment configuration of the handler: `ALLOWED_GROUP_IDS` after
split/trim/filter, `REQUIRED_PREFIX` (empty when unset), and the LINE
channel access token (`none` when unset). -/
structure Env where
  allowedGroupIds : List String
  reqPfx : String
  token : Option String
deriving DecidableEq, Repr

/-- One webhook event as the handler reads it; `Option` fields model
JS optional chaining (`?.`) where the field may be absent. -/
structure LineEvent where
  eventType : String
  messageType : Option String
  messageText : Option String
  sourceType : Option String
  sourceGroupId : Option String
  sourceRoomId : Option String
  replyToken : String
deriving DecidableEq, Repr

/-- JS truthiness of an optional string: present and nonempty. -/
def truthyStr : Option String → Bool
  | some s => s ≠ ""
  | none => false

/-- `a || b || ''` on optional strings. -/
def orEmpty (a b : Option String) : String :=
  if truthyStr a then a.getD ""
  else if truthyStr b then b.getD ""
  else ""

/-- The reply message chosen for one text message, by kind.  The source
builds concrete strings (the confirmation one embeds a wall-clock
request id, which is I/O); only the branch taken is modelled. -/
inductive ReplyKind where
  | helpMsg
  | stockList
  | confirm (r : InventoryRequest) (c : CategoryResult)
  | formatWarn
  | greeting
deriving DecidableEq, Repr

/-- The reply-decision chain of the handler for one stripped text:
`ヘルプ`/`help` → help, `在庫一覧` → stock list, a parsed request →
confirmation (with its detected category), else warn when a trigger word
is present, else the greeting. -/
def replyFor (strippedText : String) : ReplyKind :=
  if strippedText = "ヘルプ" ∨ toLowerStr strippedText = "help" then .helpMsg
  else if strippedText = "在庫一覧" then .stockList
  else
    match parseInventoryRequest strippedText with
    | some r => .confirm r (detectCategory r.productCode strippedText)
    | none => if hasTrigger strippedText then .formatWarn else .greeting

/-- The successful-construction behavior of
`text.replace(new RegExp('^' + REQUIRED_PREFIX), '')`: an anchored
replace of the prefix pattern by the empty string, here for a prefix
the constructor accepted, modelled as a literal strip (exact whenever
the configured prefix contains no regex metacharacters; the throwing
constructor is the `regexExc` oracle of `processEventE`). -/
def stripPfx (p : String) (text : String) : String :=
  if listPfx p.data text.data then String.mk (text.data.drop p.data.length) else text

/-- Per-event processing of the handler loop up to the reply decision:
only group/room text messages pass the guards (allow-list, required
prefix on normalized text); `.ok none` means the event is skipped.
When a nonempty prefix is configured, the `strippedText` line evaluates
`new RegExp('^' + REQUIRED_PREFIX)`, which throws a `SyntaxError` for a
prefix that is not a valid pattern; that external behavior is the
oracle `regexExc`: `some msg` means the constructor throws `msg`
(propagating to the surrounding `try`), `none` means it succeeds. -/
def processEventE (env : Env) (regexExc : Option String) (e : LineEvent) :
    Except String (Option ReplyKind) :=
  if e.eventType = "message" ∧ e.messageType = some "text" then
    if ¬ (e.sourceType = some "group" ∨ e.sourceType = some "room") then .ok none
    else if env.allowedGroupIds ≠ [] ∧
        ¬ env.allowedGroupIds.contains (orEmpty e.sourceGroupId e.sourceRoomId) then .ok none
    else if env.reqPfx ≠ "" ∧
        ¬ listPfx (normalizeText env.reqPfx).data
            (normalizeText (e.messageText.getD "")).data then .ok none
    else if env.reqPfx ≠ "" then
      regexExc.elim
        (.ok (some (replyFor (stripPfx env.reqPfx (e.messageText.getD "")))))
        (fun msg => Except.error msg)
    else .ok (some (replyFor (e.messageText.getD "")))
  else .ok none

/-- The event loop of the POST branch.  The two external effects that
can throw inside the `try` are modelled by oracles: `regexExc` is the
`RegExp` constructor on the configured prefix (see `processEventE`),
and `fetchExc` is the outbound reply call (`fetch` to the LINE reply
endpoint): `some msg` means the call rejects with that message, `none`
means it resolves.  The reply call happens only when a reply was chosen
and the token is truthy. -/
def runEvents (env : Env) (regexExc fetchExc : Option String) :
    List LineEvent → Except String Unit
  | [] => .ok ()
  | e :: es =>
    match processEventE env regexExc e with
    | .error msg => .error msg
    | .ok (some _) =>
      if truthyStr env.token then
        fetchExc.elim (runEvents env regexExc fetchExc es) (fun msg => Except.error msg)
      else runEvents env regexExc fetchExc es
    | .ok none => runEvents env regexExc fetchExc es

/-- HTTP response as status plus the optional error payload. -/
structure HttpResponse where
  status : Nat
  errBody : Option String
deriving DecidableEq, Repr

/-- The exported `handler`: OPTIONS and GET answer 200; any other
non-POST method answers 405; POST answers 200, with the body's missing
`events` array short-circuiting to 200, unless an exception escapes the
loop, which answers 500 echoing the error message.  `bodyEvents` is
`none` when `body.events` is not an array. -/
def handler (env : Env) (method : String) (bodyEvents : Option (List LineEvent))
    (regexExc fetchExc : Option String) : HttpResponse :=
  if method = "OPTIONS" then ⟨200, none⟩
  else if method = "GET" then ⟨200, none⟩
  else if method ≠ "POST" then ⟨405, some "Method not allowed"⟩
  else
    match bodyEvents with
    | none => ⟨200, none⟩
    | some events =>
      match runEvents env regexExc fetchExc events with
      | .ok _ => ⟨200, none⟩
      | .error msg => ⟨500, some msg⟩

/-! ## Helper lemmas -/

/-- Both branches of `getProductUnit` return `'本'`. -/
lemma gpu_const (s : String) : getProductUnit s = "本" := by
  unfold getProductUnit
  split <;> rfl

/-- `priorityOf` only ever produces the two priority values. -/
lemma priorityOf_mem (text : String) :
    priorityOf text = "urgent" ∨ priorityOf text = "normal" := by
  unfold priorityOf
  split <;> simp

/-- Field invariants of the first-branch record. -/
lemma mkReq1_inv (raw text : String) (g1 d : List Char) (u : Option (List Char)) :
    ((mkReq1 raw text g1 d u).unit = "本" ∨ (mkReq1 raw text g1 d u).unit = "g") ∧
    ((mkReq1 raw text g1 d u).priority = "urgent" ∨
      (mkReq1 raw text g1 d u).priority = "normal") ∧
    (mkReq1 raw text g1 d u).originalText = raw := by
  unfold mkReq1
  refine ⟨?_, priorityOf_mem text, rfl⟩
  cases u with
  | none => simp [gpu_const]
  | some sp =>
    dsimp only
    split <;> simp

/-- Field invariants of the second-branch record. -/
lemma mkReq2_inv (raw text : String) (name g2 g3 : List Char) :
    ((mkReq2 raw text name g2 g3).unit = "本" ∨ (mkReq2 raw text name g2 g3).unit = "g") ∧
    ((mkReq2 raw text name g2 g3).priority = "urgent" ∨
      (mkReq2 raw text name g2 g3).priority = "normal") ∧
    (mkReq2 raw text name g2 g3).originalText = raw := by
  unfold mkReq2
  exact ⟨Or.inl rfl, priorityOf_mem text, rfl⟩

/-- With a succeeding `RegExp` constructor, per-event processing never
raises. -/
lemma processEventE_none_ok (env : Env) (e : LineEvent) (msg : String) :
    processEventE env none e ≠ Except.error msg := by
  unfold processEventE
  repeat' split
  all_goals simp

/-- When per-event processing raises, the message is the one the
`RegExp` constructor threw. -/
lemma processEventE_err_src (env : Env) (rexc : Option String) (e : LineEvent) (msg : String)
    (h : processEventE env rexc e = Except.error msg) : rexc = some msg := by
  unfold processEventE at h
  repeat' split at h
  all_goals first
    | (exact absurd h (by simp))
    | (cases rexc with
        | none => exact absurd h (by simp)
        | some m => exact congrArg some (Except.error.inj h))

/-- With both external calls resolving, the event loop never raises. -/
lemma runEvents_ok_noexc (env : Env) (evs : List LineEvent) :
    runEvents env none none evs = .ok () := by
  induction evs with
  | nil => rfl
  | cons e es ih =>
    unfold runEvents
    cases hpe : processEventE env none e with
    | error msg => exact absurd hpe (processEventE_none_ok env e msg)
    | ok r =>
      cases r with
      | none => exact ih
      | some rk =>
        dsimp only
        split <;> exact ih

/-- When the loop raises, the message came from one of the two
oracles, and is echoed unchanged. -/
lemma runEvents_err_src (env : Env) (rexc fexc : Option String) (evs : List LineEvent)
    (msg : String) (h : runEvents env rexc fexc evs = .error msg) :
    rexc = some msg ∨ fexc = some msg := by
  induction evs with
  | nil => simp [runEvents] at h
  | cons e es ih =>
    unfold runEvents at h
    cases hpe : processEventE env rexc e <;> rw [hpe] at h
    · exact Or.inl ((Except.error.inj h).symm ▸ processEventE_err_src env rexc e _ hpe)
    · rename_i r
      cases r with
      | none => exact ih h
      | some rk =>
        by_cases ht : truthyStr env.token = true
        · rw [if_pos ht] at h
          cases fexc with
          | none => exact ih h
          | some m => exact Or.inr (congrArg some (Except.error.inj h))
        · rw [if_neg ht] at h
          exact ih h

/-! ## Claim theorems -/

/-- C1: `parseInventoryRequest "5NN 2本欲しい"` returns a non-null
record with productCode `"5NN"`, quantity 2, unit `"本"`, priority
`"normal"`; on `"至急GR13 1本欲しい"` it returns a non-null record
whose priority is `"urgent"`. -/
theorem C1_parse_examples :
    parseInventoryRequest "5NN 2本欲しい" =
      some ⟨"5NN", 2, "本", "5NN 2本欲しい", "normal"⟩ ∧
    parseInventoryRequest "至急GR13 1本欲しい" =
      some ⟨"GR13", 1, "本", "至急GR13 1本欲しい", "urgent"⟩ := by
  decide

/-- C3: any input whose normalized form contains no trigger keyword
parses to `none`, whatever code-like substrings it contains. -/
theorem C3_no_trigger_none (s : String) (h : hasTrigger (normalizeText s) = false) :
    parseInventoryRequest s = none := by
  unfold parseInventoryRequest
  simp [h]

/-- Witness for C3 on the trigger-free, code-like input `"ABC 123"`. -/
theorem C3_no_trigger_none_witness :
    hasTrigger (normalizeText "ABC 123") = false ∧
    parseInventoryRequest "ABC 123" = none :=
  ⟨by decide, C3_no_trigger_none "ABC 123" (by decide)⟩

/-- C4: `detectCategory "5NN" t` is the color category for every `t`,
and `detectCategory "ABC" "縮毛矯正"` is the straightening category. -/
theorem C4_detect_examples :
    (∀ t : String, detectCategory "5NN" t = ⟨"color", "color"⟩) ∧
    detectCategory "ABC" "縮毛矯正" = ⟨"straightening", "chemical"⟩ := by
  exact ⟨fun t => rfl, by decide⟩

/-- C5: `getProductUnit` returns `"本"` on every input string — the
color-like branching never changes the result, so it is constant. -/
theorem C5_unit_constant (s : String) : getProductUnit s = "本" :=
  gpu_const s

/-- C8: normalizing the full-width `"５ＮＮ　２本"` yields `"5NN 2本"`
(half-width letters and digits, regular space); `normalizeText` is a
pure total function of the input string by construction. -/
theorem C8_normalize_fullwidth : normalizeText "５ＮＮ　２本" = "5NN 2本" := by
  decide

/-- C9: on `"GR13 欲しい"` (trigger present, code ending in digits, no
separate quantity) the first regex backtracks and splits the trailing
digit off as the quantity: productCode `"GR1"`, quantity 3 — not `none`
and not code `"GR13"`. -/
theorem C9_backtrack_split :
    parseInventoryRequest "GR13 欲しい" =
      some ⟨"GR1", 3, "本", "GR13 欲しい", "normal"⟩ := by
  decide

/-- C2 counterexample: on `"クオライン8 3本 欲しい"` the second branch
matches with digit groups `"8"` and `"3"`, yet the productCode is
`"クオライン_8"` — it contains the matched product-line name and omits
the second digit group entirely, so it is not a concatenation of the
two digit groups (the second group becomes the quantity instead). -/
theorem C2_counterexample :
    parseInventoryRequest "クオライン8 3本 欲しい" =
      some ⟨"クオライン_8", 3, "本", "クオライン8 3本 欲しい", "normal"⟩ ∧
    containsSub "3".data "クオライン_8".data = false ∧
    containsSub "クオライン".data "クオライン_8".data = true := by
  decide

/-- C2 (amended): the second, named-product-line pattern concatenates
the matched product-line name and the FIRST digit group (joined by an
underscore) into the composite productCode, the second digit group
becoming the quantity; the two regex attempts are ordered, the first
match wins, and `none` is returned when neither matches. -/
theorem C2_amended_composite_code :
    (∀ s name g2 g3, hasTrigger (normalizeText s) = true →
      search1 (normalizeText s).data = none →
      search2 (normalizeText s).data = some (name, g2, g3) →
      parseInventoryRequest s =
        some ⟨String.mk name ++ "_" ++ String.mk g2, parseDigits g3, "本", s,
          priorityOf (normalizeText s)⟩) ∧
    (∀ s g1 d u, hasTrigger (normalizeText s) = true →
      search1 (normalizeText s).data = some (g1, d, u) →
      parseInventoryRequest s = some (mkReq1 s (normalizeText s) g1 d u)) ∧
    (∀ s, search1 (normalizeText s).data = none →
      search2 (normalizeText s).data = none →
      parseInventoryRequest s = none) := by
  refine ⟨?_, ?_, ?_⟩
  · intro s name g2 g3 ht h1 h2
    unfold parseInventoryRequest
    simp [ht, h1, h2, mkReq2]
  · intro s g1 d u ht h1
    unfold parseInventoryRequest
    simp [ht, h1]
  · intro s h1 h2
    unfold parseInventoryRequest
    split
    · simp [h1, h2]
    · rfl

/-- Witness for C2 (amended) on `"クオライン8 3本 欲しい"`. -/
theorem C2_amended_composite_code_witness :
    hasTrigger (normalizeText "クオライン8 3本 欲しい") = true ∧
    search1 (normalizeText "クオライン8 3本 欲しい").data = none ∧
    search2 (normalizeText "クオライン8 3本 欲しい").data =
      some ("クオライン".data, ['8'], ['3']) ∧
    parseInventoryRequest "クオライン8 3本 欲しい" =
      some ⟨String.mk "クオライン".data ++ "_" ++ String.mk ['8'], parseDigits ['3'], "本",
        "クオライン8 3本 欲しい", priorityOf (normalizeText "クオライン8 3本 欲しい")⟩ :=
  ⟨by decide, by decide, by decide,
    C2_amended_composite_code.1 "クオライン8 3本 欲しい" "クオライン".data ['8'] ['3']
      (by decide) (by decide) (by decide)⟩

/-- C10 counterexample: on `"クオライン80 欲しい"` the composite branch
IS reached although the digit group directly after the product name is
`"80"`, two digits, not a single digit: the first pattern has no match
(its code group needs two characters plus a following digit), and the
named pattern splits `"80"` into first group `"8"` and quantity `"0"`. -/
theorem C10_counterexample :
    parseInventoryRequest "クオライン80 欲しい" =
      some ⟨"クオライン_8", 0, "本", "クオライン80 欲しい", "normal"⟩ ∧
    (spanP isDigitA ((normalizeText "クオライン80 欲しい").data.drop 5)).1 = ['8', '0'] ∧
    search1 (normalizeText "クオライン80 欲しい").data = none := by
  decide

/-- C10 (amended): on `"クオライン80 3本 お願い"` (the help reply's own
example) the generic first pattern matches the substring `"80 3本"`
before the named pattern is tried — which would also match — so the
result is productCode `"80"`, quantity 3; the composite branch is
reachable only when the first pattern has no match anywhere in the
text, which also happens when the digit group after the name has no
separate quantity following it (e.g. `"クオライン80 欲しい"`), not only
when that group is a single digit. -/
theorem C10_amended_first_pattern_wins :
    parseInventoryRequest "クオライン80 3本 お願い" =
      some ⟨"80", 3, "本", "クオライン80 3本 お願い", "normal"⟩ ∧
    search2 (normalizeText "クオライン80 3本 お願い").data ≠ none ∧
    parseInventoryRequest "クオライン80 欲しい" =
      some ⟨"クオライン_8", 0, "本", "クオライン80 欲しい", "normal"⟩ ∧
    search1 (normalizeText "クオライン80 欲しい").data = none := by
  decide

/-- C7: every non-null parse has unit in {本, g}, priority in
{urgent, normal}, and `originalText` equal to the unnormalized input
(the quantity is a `Nat` by construction of the embedding); and
`detectCategory` always lands in one of the four fixed categories,
with "other" as the final fallback branch. -/
theorem C7_result_invariants :
    (∀ s r, parseInventoryRequest s = some r →
      (r.unit = "本" ∨ r.unit = "g") ∧
      (r.priority = "urgent" ∨ r.priority = "normal") ∧
      r.originalText = s) ∧
    (∀ c t, (detectCategory c t).category = "color" ∨
      (detectCategory c t).category = "straightening" ∨
      (detectCategory c t).category = "treatment" ∨
      (detectCategory c t).category = "other") := by
  constructor
  · intro s r h
    unfold parseInventoryRequest at h
    split at h
    · split at h
      · rename_i g1 d u _
        rw [Option.some.injEq] at h
        exact h ▸ mkReq1_inv s (normalizeText s) g1 d u
      · split at h
        · rename_i name g2 g3 _
          rw [Option.some.injEq] at h
          exact h ▸ mkReq2_inv s (normalizeText s) name g2 g3
        · exact absurd h (by simp)
    · exact absurd h (by simp)
  · intro c t
    unfold detectCategory
    split
    · exact Or.inl rfl
    · split
      · exact Or.inr (Or.inl rfl)
      · split
        · exact Or.inr (Or.inr (Or.inl rfl))
        · exact Or.inr (Or.inr (Or.inr rfl))

/-- Witness for C7 on `"2NN 5g 発注"`, which exercises the `g` unit. -/
theorem C7_result_invariants_witness :
    parseInventoryRequest "2NN 5g 発注" =
      some ⟨"2NN", 5, "g", "2NN 5g 発注", "normal"⟩ ∧
    (((⟨"2NN", 5, "g", "2NN 5g 発注", "normal"⟩ : InventoryRequest).unit = "本" ∨
      (⟨"2NN", 5, "g", "2NN 5g 発注", "normal"⟩ : InventoryRequest).unit = "g") ∧
     ((⟨"2NN", 5, "g", "2NN 5g 発注", "normal"⟩ : InventoryRequest).priority = "urgent" ∨
      (⟨"2NN", 5, "g", "2NN 5g 発注", "normal"⟩ : InventoryRequest).priority = "normal") ∧
     (⟨"2NN", 5, "g", "2NN 5g 発注", "normal"⟩ : InventoryRequest).originalText =
       "2NN 5g 発注") :=
  ⟨by decide,
    C7_result_invariants.1 "2NN 5g 発注" ⟨"2NN", 5, "g", "2NN 5g 発注", "normal"⟩ (by decide)⟩

/-- C6: every request is answered 200 — OPTIONS and GET directly, a
POST without an `events` array directly, and a POST whose events are
processed without an exception as well — except that a method outside
{GET, POST, OPTIONS} is answered 405 (and only such a method is), and
an exception escaping the POST loop is answered 500 echoing the error
message (and a 500 arises only that way, the message coming from one of
the two throwing external calls); text that matches nothing yields the
fallback/greeting reply (one of the non-confirmation reply kinds), not
an error. -/
theorem C6_handler_statuses :
    (∀ env method ev rexc fexc, (handler env method ev rexc fexc).status = 405 ↔
      (method ≠ "GET" ∧ method ≠ "POST" ∧ method ≠ "OPTIONS")) ∧
    (∀ env method ev rexc fexc, method ≠ "GET" → method ≠ "POST" → method ≠ "OPTIONS" →
      handler env method ev rexc fexc = ⟨405, some "Method not allowed"⟩) ∧
    (∀ env ev rexc fexc, handler env "GET" ev rexc fexc = ⟨200, none⟩ ∧
      handler env "OPTIONS" ev rexc fexc = ⟨200, none⟩) ∧
    (∀ env rexc fexc, handler env "POST" none rexc fexc = ⟨200, none⟩) ∧
    (∀ env evs, handler env "POST" (some evs) none none = ⟨200, none⟩) ∧
    (∀ env evs rexc fexc msg, runEvents env rexc fexc evs = .error msg →
      handler env "POST" (some evs) rexc fexc = ⟨500, some msg⟩) ∧
    (∀ env method ev rexc fexc, (handler env method ev rexc fexc).status = 500 →
      method = "POST" ∧ ∃ msg, (rexc = some msg ∨ fexc = some msg) ∧
        (handler env method ev rexc fexc).errBody = some msg) ∧
    (∀ env method ev rexc fexc, (handler env method ev rexc fexc).status = 200 ∨
      (handler env method ev rexc fexc).status = 405 ∨
      (handler env method ev rexc fexc).status = 500) ∧
    (∀ t, parseInventoryRequest t = none →
      replyFor t = .helpMsg ∨ replyFor t = .stockList ∨
      replyFor t = .formatWarn ∨ replyFor t = .greeting) := by
  refine ⟨?_, ?_, ?_, ?_, ?_, ?_, ?_, ?_, ?_⟩
  · intro env method ev rexc fexc
    unfold handler
    by_cases hOpt : method = "OPTIONS"
    · rw [if_pos hOpt]
      exact ⟨fun h => absurd h (by decide), fun ⟨_, _, h3⟩ => absurd hOpt h3⟩
    · rw [if_neg hOpt]
      by_cases hGet : method = "GET"
      · rw [if_pos hGet]
        exact ⟨fun h => absurd h (by decide), fun ⟨h1, _, _⟩ => absurd hGet h1⟩
      · rw [if_neg hGet]
        by_cases hPost : method ≠ "POST"
        · rw [if_pos hPost]
          exact ⟨fun _ => ⟨hGet, hPost, hOpt⟩, fun _ => rfl⟩
        · rw [if_neg hPost]
          refine ⟨fun h => ?_, fun ⟨_, h2, _⟩ => absurd (not_not.mp hPost) h2⟩
          cases ev with
          | none => exact absurd h (by simp)
          | some evs =>
            dsimp only at h
            cases hrun : runEvents env rexc fexc evs <;> rw [hrun] at h <;>
              exact absurd h (by simp)
  · intro env method ev rexc fexc h1 h2 h3
    unfold handler
    rw [if_neg h3, if_neg h1, if_pos h2]
  · intro env ev rexc fexc
    exact ⟨rfl, rfl⟩
  · intro env rexc fexc
    rfl
  · intro env evs
    have h := runEvents_ok_noexc env evs
    unfold handler
    dsimp only
    rw [h]
    rfl
  · intro env evs rexc fexc msg h
    unfold handler
    dsimp only
    rw [h]
    rfl
  · intro env method ev rexc fexc h
    unfold handler at h ⊢
    by_cases hOpt : method = "OPTIONS"
    · rw [if_pos hOpt] at h
      exact absurd h (by simp)
    · rw [if_neg hOpt] at h ⊢
      by_cases hGet : method = "GET"
      · rw [if_pos hGet] at h
        exact absurd h (by simp)
      · rw [if_neg hGet] at h ⊢
        by_cases hPost : method ≠ "POST"
        · rw [if_pos hPost] at h
          exact absurd h (by simp)
        · rw [if_neg hPost] at h ⊢
          refine ⟨not_not.mp hPost, ?_⟩
          cases ev with
          | none => exact absurd h (by simp)
          | some evs =>
            dsimp only at h ⊢
            cases hrun : runEvents env rexc fexc evs with
            | ok u =>
              rw [hrun] at h
              exact absurd h (by simp)
            | error msg =>
              exact ⟨msg, runEvents_err_src env rexc fexc evs msg hrun, rfl⟩
  · intro env method ev rexc fexc
    unfold handler
    split
    · exact Or.inl rfl
    · split
      · exact Or.inl rfl
      · split
        · exact Or.inr (Or.inl rfl)
        · split
          · exact Or.inl rfl
          · split <;> [exact Or.inl rfl; exact Or.inr (Or.inr rfl)]
  · intro t h
    unfold replyFor
    split
    · exact Or.inl rfl
    · split
      · exact Or.inr (Or.inl rfl)
      · rw [h]
        by_cases ht : hasTrigger t = true
        · simp only [ht]
          exact Or.inr (Or.inr (Or.inl rfl))
        · simp only [eq_false_of_ne_true ht]
          exact Or.inr (Or.inr (Or.inr rfl))

/-- Witness for C6: OPTIONS, GET and an exception-free POST with one
processed event answer 200; DELETE answers 405; a rejecting reply call
and a throwing `RegExp` constructor each produce a concrete loop error,
answered 500 with the message echoed; and the unmatched text
`"こんにちは"` gets the greeting reply, not an error. -/
theorem C6_handler_statuses_witness :
    handler ⟨[], "", none⟩ "OPTIONS" none none none = ⟨200, none⟩ ∧
    handler ⟨[], "", none⟩ "GET" none none none = ⟨200, none⟩ ∧
    handler ⟨[], "", some "tok"⟩ "POST"
      (some [⟨"message", some "text", some "5NN 2本 欲しい", some "group",
        some "g1", none, "rt"⟩]) none none = ⟨200, none⟩ ∧
    handler ⟨[], "", none⟩ "DELETE" none none none = ⟨405, some "Method not allowed"⟩ ∧
    (runEvents ⟨[], "", some "tok"⟩ none (some "boom")
      [⟨"message", some "text", some "5NN 2本 欲しい", some "group",
        some "g1", none, "rt"⟩] = .error "boom" ∧
     handler ⟨[], "", some "tok"⟩ "POST"
      (some [⟨"message", some "text", some "5NN 2本 欲しい", some "group",
        some "g1", none, "rt"⟩]) none (some "boom") = ⟨500, some "boom"⟩) ∧
    (runEvents ⟨[], "(", some "tok"⟩ (some "Invalid regular expression") none
      [⟨"message", some "text", some "(5NN 2本 欲しい", some "group",
        some "g1", none, "rt"⟩] = .error "Invalid regular expression" ∧
     handler ⟨[], "(", some "tok"⟩ "POST"
      (some [⟨"message", some "text", some "(5NN 2本 欲しい", some "group",
        some "g1", none, "rt"⟩]) (some "Invalid regular expression") none =
      ⟨500, some "Invalid regular expression"⟩) ∧
    (replyFor "こんにちは" = .helpMsg ∨ replyFor "こんにちは" = .stockList ∨
     replyFor "こんにちは" = .formatWarn ∨ replyFor "こんにちは" = .greeting) :=
  ⟨(C6_handler_statuses.2.2.1 ⟨[], "", none⟩ none none none).2,
   (C6_handler_statuses.2.2.1 ⟨[], "", none⟩ none none none).1,
   C6_handler_statuses.2.2.2.2.1 ⟨[], "", some "tok"⟩
     [⟨"message", some "text", some "5NN 2本 欲しい", some "group", some "g1", none, "rt"⟩],
   C6_handler_statuses.2.1 ⟨[], "", none⟩ "DELETE" none none none
     (by decide) (by decide) (by decide),
   ⟨by rfl,
    C6_handler_statuses.2.2.2.2.2.1 ⟨[], "", some "tok"⟩
      [⟨"message", some "text", some "5NN 2本 欲しい", some "group", some "g1", none, "rt"⟩]
      none (some "boom") "boom" (by rfl)⟩,
   ⟨by rfl,
    C6_handler_statuses.2.2.2.2.2.1 ⟨[], "(", some "tok"⟩
      [⟨"message", some "text", some "(5NN 2本 欲しい", some "group", some "g1", none, "rt"⟩]
      (some "Invalid regular expression") none "Invalid regular expression" (by rfl)⟩,
   C6_handler_statuses.2.2.2.2.2.2.2.2 "こんにちは" (by decide)⟩

end SalonWebhook
